import Mathlib

/- Shallow embedding of the paginated fetch controller implemented in
src/useFetchData.tsx of the pro-table repository.

Modelling conventions:
* React state updates (setList, setLoading, setPageInfo) are modelled as
  immediate updates of an explicit State record; every operation reads the
  state that is current at its invocation.
* The asynchronous data source getData is modelled by passing the settled
  outcome of the awaited call (FetchOutcome) as an explicit argument.  A
  promise that resolved to an object, a promise that resolved to a nullish
  value, and a rejected promise are all covered; the embedded fetch
  procedure is a total function, which matches the try/catch/finally
  structure making the promise returned by fetchList always resolve.
* Invocations of getData, onLoad and onRequestError are recorded in a
  FetchEvents record rather than executed.
* JavaScript truthiness on numbers kept in Option Nat is spelled out:
  a remembered previous value is falsy exactly when it is absent (the
  ref of usePrevious still holds undefined) or equal to zero.
-/

namespace ProTable

/- PageInfo, lines 33-38 of useFetchData.tsx. -/
structure PageInfo where
  hasMore : Bool
  page : Nat
  pageSize : Nat
  total : Nat
deriving DecidableEq

/- An argument to the exposed setPageInfo, of type Partial PageInfo:
every field may be present or absent. -/
structure PagePatch where
  hasMore : Option Bool
  page : Option Nat
  pageSize : Option Nat
  total : Option Nat
deriving DecidableEq

/- The settled outcome of one call of getData.  In the resolved case the
fields mirror the destructuring on lines 86-90: data may be absent (the
promise resolved to a nullish value, turned into an empty object by
the expression on line 90), success is an optional boolean, total an
optional number defaulting to 0. -/
inductive FetchOutcome (α : Type) (ε : Type) where
  | resolved (data : Option (List α)) (success : Option Bool) (total : Option Nat)
  | rejected (e : ε)
deriving DecidableEq

/- The state owned by the hook: list (line 58, undefined when no
defaultData was supplied), loading (line 59, initially undefined), and
pageInfo (lines 61-66). -/
structure State (α : Type) where
  list : Option (List α)
  loading : Option Bool
  pageInfo : PageInfo
deriving DecidableEq

/- The argument of an onRequestError call: either the rejection reason
of the data source, or the TypeError raised inside the try block when
the spread on line 93 is applied to an absent data. -/
inductive RequestError (ε : Type) where
  | rejection (e : ε)
  | spreadTypeError
deriving DecidableEq

/- Record of the externally observable calls made during one reaction:
the requests passed to getData as pairs (current, pageSize), the
arguments of the onLoad calls, and the arguments of the onRequestError
calls. -/
structure FetchEvents (α : Type) (ε : Type) where
  requests : List (Nat × Nat)
  onLoadCalls : List (Option (List α))
  onRequestErrorCalls : List (RequestError ε)
deriving DecidableEq

def FetchEvents.empty {α ε : Type} : FetchEvents α ε := ⟨[], [], []⟩

/- The numeric construction options, lines 44-45. -/
structure FetchOptions where
  defaultCurrent : Option Nat
  defaultPageSize : Option Nat
deriving DecidableEq

/- Line 52: defaultPageSize = 20 when the option is absent. -/
def resolvedPageSize (o : FetchOptions) : Nat :=
  o.defaultPageSize.getD 20

/- Line 53 gives defaultCurrent = 1 when absent, and lines 63 and 169
additionally map a falsy (zero) value to 1 via defaultCurrent || 1. -/
def resolvedCurrent (o : FetchOptions) : Nat :=
  let c := o.defaultCurrent.getD 1
  if c = 0 then 1 else c

/- The pageInfo value built at construction, lines 61-66. -/
def initialPageInfo (o : FetchOptions) : PageInfo :=
  { hasMore := false, page := resolvedCurrent o, pageSize := resolvedPageSize o, total := 0 }

/- The full state at construction: list starts as defaultData (line 58),
loading starts as undefined (line 59). -/
def initialState {α : Type} (defaultData : Option (List α)) (o : FetchOptions) : State α :=
  { list := defaultData, loading := none, pageInfo := initialPageInfo o }

/- The first half of fetchList (lines 78-83), up to the await: the guard
on loading, then setLoading(true) and the destructuring of pageSize and
page.  Returns none when the call is dropped by the in-flight guard,
otherwise the state with loading set and the request parameters
(current, pageSize) handed to getData. -/
def fetchStart {α : Type} (s : State α) : Option (State α × Nat × Nat) :=
  if s.loading = some true then none
  else some ({ s with loading := some true }, s.pageInfo.page, s.pageInfo.pageSize)

/- The whole of fetchList (lines 78-108) as one atomic operation from the
state at invocation and the settled outcome of getData.  isAppend is the
optional parameter of line 78; the guarded call returns the state
unchanged with no events.  In the resolved case with success exactly
false the branch of line 91 is not entered, yet onLoad still runs with
the raw data (lines 100-102).  When success is not false, the append
branch (isAppend holds and the list is not undefined, line 92) spreads
list and data: when data is absent this spread raises a TypeError that
the catch of line 103 routes to onRequestError, so setList, setPageInfo
and onLoad are all skipped; with data present the concatenation is
stored and pageInfo gets the fresh total together with the derived
hasMore (line 98), then onLoad runs.  In replace mode (line 95) the raw
data is stored — setList accepts an absent data — pageInfo is updated
the same way and onLoad runs.  In the rejected case onRequestError
receives the reason (line 104).  Finally loading clears (line 106). -/
def fetchList {α ε : Type} (isAppend : Bool) (s : State α) (o : FetchOutcome α ε) :
    State α × FetchEvents α ε :=
  if s.loading = some true then (s, FetchEvents.empty)
  else
    match o with
    | FetchOutcome.rejected e =>
        ({ s with loading := some false },
         ⟨[(s.pageInfo.page, s.pageInfo.pageSize)], [], [RequestError.rejection e]⟩)
    | FetchOutcome.resolved data success total =>
        let dataTotal := total.getD 0
        if success = some false then
          ({ s with loading := some false },
           ⟨[(s.pageInfo.page, s.pageInfo.pageSize)], [data], []⟩)
        else if isAppend && s.list.isSome then
          match data with
          | none =>
              ({ s with loading := some false },
               ⟨[(s.pageInfo.page, s.pageInfo.pageSize)], [], [RequestError.spreadTypeError]⟩)
          | some d =>
              ({ s with
                 list := some (s.list.getD [] ++ d),
                 pageInfo := { s.pageInfo with
                               total := dataTotal,
                               hasMore := decide (s.pageInfo.pageSize * s.pageInfo.page < dataTotal) },
                 loading := some false },
               ⟨[(s.pageInfo.page, s.pageInfo.pageSize)], [some d], []⟩)
        else
          ({ s with
             list := data,
             pageInfo := { s.pageInfo with
                           total := dataTotal,
                           hasMore := decide (s.pageInfo.pageSize * s.pageInfo.page < dataTotal) },
             loading := some false },
           ⟨[(s.pageInfo.page, s.pageInfo.pageSize)], [data], []⟩)

/- fetchMore, lines 110-115: ignored when hasMore is false, otherwise
advances page by one through setPageInfo, keeping every other field. -/
def fetchMoreAction {α : Type} (s : State α) : State α :=
  if s.pageInfo.hasMore then
    { s with pageInfo := { s.pageInfo with page := s.pageInfo.page + 1 } }
  else s

/- resetPageIndex, lines 149-151. -/
def resetPageIndexAction {α : Type} (s : State α) : State α :=
  { s with pageInfo := { s.pageInfo with page := 1 } }

/- reset, lines 166-173: writes the object built from the construction
options, the same expression as the initial pageInfo of lines 61-66.
It is a plain state update: it produces no FetchEvents, so it neither
fetches nor touches the list. -/
def resetAction {α : Type} (o : FetchOptions) (s : State α) : State α :=
  { s with pageInfo := initialPageInfo o }

/- The exposed setPageInfo, lines 175-179: a shallow merge of the patch
over the current pageInfo; absent fields keep their current value. -/
def setPageInfoAction {α : Type} (info : PagePatch) (s : State α) : State α :=
  { s with pageInfo :=
    { hasMore := info.hasMore.getD s.pageInfo.hasMore,
      page := info.page.getD s.pageInfo.page,
      pageSize := info.pageSize.getD s.pageInfo.pageSize,
      total := info.total.getD s.pageInfo.total } }

/- The decision part of the page-change effect, lines 120-135.  prePage
and prePageSize are the values remembered by usePrevious (lines 69-70).
Skip when (prePage falsy or equal to page) and (prePageSize falsy or
equal to pageSize), line 124.  Otherwise read list.length (line 132):
when the list is undefined this read faults, modelled by none; page
itself is always a defined number in the model, so the guard
page !== undefined of line 132 holds.  some true means fetchList is
invoked, some false means it is not. -/
def pageChangeFetchDecision {α : Type} (prePage prePageSize : Option Nat) (s : State α) :
    Option Bool :=
  if ((prePage = none ∨ prePage = some 0) ∨ prePage = some s.pageInfo.page) ∧
     ((prePageSize = none ∨ prePageSize = some 0) ∨ prePageSize = some s.pageInfo.pageSize) then
    some false
  else
    match s.list with
    | none => none
    | some l => some (decide (l.length ≤ s.pageInfo.pageSize))

/- The page-change effect itself: when the decision is to fetch, it runs
fetchList with no isAppend argument (line 133), that is replace mode. -/
def pageChangeEffect {α ε : Type} (prePage prePageSize : Option Nat) (s : State α)
    (o : FetchOutcome α ε) : Option (State α × FetchEvents α ε) :=
  match pageChangeFetchDecision prePage prePageSize s with
  | none => none
  | some false => some (s, FetchEvents.empty)
  | some true => some (fetchList false s o)

/- The pageSize-change effect, lines 138-144: return when prePageSize is
falsy, otherwise set page back to 1 and run fetchList with no isAppend
argument. -/
def pageSizeChangeEffect {α ε : Type} (prePageSize : Option Nat) (s : State α)
    (o : FetchOutcome α ε) : State α × FetchEvents α ε :=
  if prePageSize = none ∨ prePageSize = some 0 then (s, FetchEvents.empty)
  else
    fetchList false { s with pageInfo := { s.pageInfo with page := 1 } } o

/- Concrete run for the append-versus-replace property of the spec: a
data source serving page 1 as [1,2] and page 2 as [3,4], total 4, with
pageSize 2 and page starting at 1. -/
def pagesStart : State Nat := initialState none ⟨some 1, some 2⟩

def firstPageOutcome : FetchOutcome Nat String :=
  FetchOutcome.resolved (some [1, 2]) (some true) (some 4)

def secondPageOutcome : FetchOutcome Nat String :=
  FetchOutcome.resolved (some [3, 4]) (some true) (some 4)

/- State after the initial load (the effect of line 154 runs fetchList). -/
def pagesAfterLoad : State Nat := (fetchList false pagesStart firstPageOutcome).1

/- State after fetchMore advances page to 2. -/
def pagesAfterMore : State Nat := fetchMoreAction pagesAfterLoad

/-- Claim C1: at most one fetch is in flight per controller instance.  A
fetchList call made while loading is already true is a no-op that issues
no request, and two reload calls in immediate succession while the first
is pending perform exactly one getData invocation: the first call passes
the guard, flips loading to true and issues one request, and on the
resulting state the guard drops any further call with no request and no
state change (and, the function being total, without throwing). -/
theorem reload_in_flight_guard {α ε : Type} (s : State α) (o : FetchOutcome α ε) (b : Bool)
    (h : ¬ s.loading = some true) :
    ∃ s1 : State α,
      fetchStart s = some (s1, s.pageInfo.page, s.pageInfo.pageSize) ∧
      s1.loading = some true ∧
      fetchStart s1 = none ∧
      (∀ (b2 : Bool) (o2 : FetchOutcome α ε), fetchList b2 s1 o2 = (s1, FetchEvents.empty)) ∧
      (fetchList b s o).2.requests = [(s.pageInfo.page, s.pageInfo.pageSize)] := by
  refine ⟨{ s with loading := some true }, ?_, rfl, ?_, ?_, ?_⟩
  · simp [fetchStart, h]
  · simp [fetchStart]
  · intro b2 o2
    simp [fetchList]
  · cases o with
    | rejected e => simp [fetchList, h]
    | resolved data success total =>
      by_cases hs : success = some false
      · simp [fetchList, h, hs]
      · by_cases hb : (b && s.list.isSome) = true
        · cases data with
          | none => simp [fetchList, h, hs, hb]
          | some d => simp [fetchList, h, hs, hb]
        · simp [fetchList, h, hs, hb]

/-- Witness for C1 at a concrete state that is not loading. -/
theorem reload_in_flight_guard_witness :
    ¬ (⟨some [], none, ⟨false, 1, 20, 0⟩⟩ : State Nat).loading = some true ∧
    (∃ s1 : State Nat,
      fetchStart (⟨some [], none, ⟨false, 1, 20, 0⟩⟩ : State Nat) = some (s1, 1, 20) ∧
      s1.loading = some true ∧
      fetchStart s1 = none ∧
      (∀ (b2 : Bool) (o2 : FetchOutcome Nat String),
        fetchList b2 s1 o2 = (s1, FetchEvents.empty)) ∧
      (fetchList false (⟨some [], none, ⟨false, 1, 20, 0⟩⟩ : State Nat)
        (FetchOutcome.resolved (some [1]) none (some 0) : FetchOutcome Nat String)).2.requests
        = [(1, 20)]) :=
  ⟨by decide,
   reload_in_flight_guard (⟨some [], none, ⟨false, 1, 20, 0⟩⟩ : State Nat)
     (FetchOutcome.resolved (some [1]) none (some 0) : FetchOutcome Nat String) false (by decide)⟩

/-- Claim C2: the claimed behaviour is that fetchMore, after an initial
load of [1,2] at pageSize 2, yields dataSource [1,2,3,4] through an
append-mode fetch.  On the code the page-change effect of lines 120-135
invokes fetchList with no isAppend argument, so the follow-up fetch runs
in replace mode and yields [3,4]: the append branch of line 92 is dead
code, reachable from no call site.  This theorem evaluates the run:
fetchMore with hasMore false is a no-op, the initial load stores [1,2]
and computes hasMore, fetchMore advances page to 2, the page-change
reaction then leaves the list at [3,4] and not [1,2,3,4] — while the
same state fed to fetchList with isAppend true, the branch the claim
describes, would give exactly [1,2,3,4]. -/
theorem fetchMore_replace_not_append :
    fetchMoreAction pagesStart = pagesStart ∧
    pagesAfterLoad.list = some [1, 2] ∧
    pagesAfterLoad.pageInfo.hasMore = true ∧
    pagesAfterMore.pageInfo.page = 2 ∧
    (pageChangeEffect (some 1) (some 2) pagesAfterMore secondPageOutcome).map
      (fun r => r.1.list) = some (some [3, 4]) ∧
    (some [3, 4] : Option (List Nat)) ≠ some [1, 2, 3, 4] ∧
    (fetchList true pagesAfterMore secondPageOutcome).1.list = some [1, 2, 3, 4] := by
  decide

/-- Claim C3, counterexample: the claim states that a fetch whose outcome
has success false does not invoke onLoad; on the code the call of onLoad
on lines 100-102 sits outside the success test of line 91, so onLoad is
invoked with the raw data even when success is false. -/
theorem success_false_onLoad_called_counterexample :
    (fetchList false (⟨some [7], some false, ⟨false, 1, 20, 0⟩⟩ : State Nat)
      (FetchOutcome.resolved (some [99]) (some false) (some 1) : FetchOutcome Nat String)
      ).2.onLoadCalls = [some [99]] := by
  decide

/-- Claim C3 as amended: for every fetch whose outcome has success false
(and which passes the in-flight guard), the list and the pageInfo keep
their pre-call values and loading clears to false; onRequestError is not
called; but onLoad is invoked exactly once, with the raw data of the
outcome. -/
theorem success_false_state_frozen {α ε : Type} (s : State α) (b : Bool)
    (data : Option (List α)) (t : Option Nat)
    (h : ¬ s.loading = some true) :
    fetchList b s (FetchOutcome.resolved data (some false) t : FetchOutcome α ε)
      = ({ s with loading := some false },
         ⟨[(s.pageInfo.page, s.pageInfo.pageSize)], [data], []⟩) := by
  simp [fetchList, h]

/-- Witness for the amended C3 at a concrete state and outcome. -/
theorem success_false_state_frozen_witness :
    ¬ (⟨some [7], some false, ⟨false, 1, 20, 0⟩⟩ : State Nat).loading = some true ∧
    fetchList false (⟨some [7], some false, ⟨false, 1, 20, 0⟩⟩ : State Nat)
      (FetchOutcome.resolved (some [99]) (some false) (some 1) : FetchOutcome Nat String)
      = (⟨some [7], some false, ⟨false, 1, 20, 0⟩⟩, ⟨[(1, 20)], [some [99]], []⟩) :=
  ⟨by decide,
   success_false_state_frozen (⟨some [7], some false, ⟨false, 1, 20, 0⟩⟩ : State Nat) false
     (some [99]) (some 1) (by decide)⟩

/-- Claim C4: a rejected data source never surfaces to the caller.  The
fetch procedure is total (the try/catch of lines 85-107 means the
promise always resolves), onRequestError is invoked exactly once with
the rejection reason, loading clears to false, and the list and the
pageInfo keep their pre-call values. -/
theorem rejected_fetch_resolves {α ε : Type} (s : State α) (b : Bool) (e : ε)
    (h : ¬ s.loading = some true) :
    fetchList b s (FetchOutcome.rejected e : FetchOutcome α ε)
      = ({ s with loading := some false },
         ⟨[(s.pageInfo.page, s.pageInfo.pageSize)], [], [RequestError.rejection e]⟩) := by
  simp [fetchList, h]

/-- Witness for C4 at a concrete state and rejection reason. -/
theorem rejected_fetch_resolves_witness :
    ¬ (⟨some [5], none, ⟨true, 2, 10, 30⟩⟩ : State Nat).loading = some true ∧
    fetchList false (⟨some [5], none, ⟨true, 2, 10, 30⟩⟩ : State Nat)
      (FetchOutcome.rejected "boom" : FetchOutcome Nat String)
      = (⟨some [5], some false, ⟨true, 2, 10, 30⟩⟩,
         ⟨[(2, 10)], [], [RequestError.rejection "boom"]⟩) :=
  ⟨by decide,
   rejected_fetch_resolves (⟨some [5], none, ⟨true, 2, 10, 30⟩⟩ : State Nat) false "boom"
     (by decide)⟩

/-- Claim C5, counterexample: setPageInfo (lines 175-179) is an operation
of the controller whose patch may name hasMore, and it then writes that
value independently of the derivation total > pageSize * page: here
hasMore becomes true while the derivation at the resulting pageInfo
(total 0, pageSize 20, page 1) yields false, and the operation is not
reset. -/
theorem hasMore_override_counterexample :
    (setPageInfoAction ⟨some true, none, none, none⟩
      (⟨some [], some false, ⟨false, 1, 20, 0⟩⟩ : State Nat)).pageInfo.hasMore = true ∧
    decide ((setPageInfoAction ⟨some true, none, none, none⟩
        (⟨some [], some false, ⟨false, 1, 20, 0⟩⟩ : State Nat)).pageInfo.pageSize *
      (setPageInfoAction ⟨some true, none, none, none⟩
        (⟨some [], some false, ⟨false, 1, 20, 0⟩⟩ : State Nat)).pageInfo.page <
      (setPageInfoAction ⟨some true, none, none, none⟩
        (⟨some [], some false, ⟨false, 1, 20, 0⟩⟩ : State Nat)).pageInfo.total) = false := by
  decide

/-- Claim C5 as amended: after every fetch that passes the in-flight
guard, resolves with success not false and reaches the setPageInfo of
line 98 — every replace-mode fetch, which is every fetch a call site of
the hook can trigger, and an append-mode fetch with present data — the
new total is the reported total (default 0) and hasMore is exactly the
derived value total > pageSize * page computed from the fresh total.
Every other path preserves hasMore rather than deriving it: the
append-mode fetch with absent data (whose spread on line 93 throws into
the catch, leaving pageInfo untouched), a fetch resolving with success
false, a rejected fetch, fetchMore, resetPageIndex, and a setPageInfo
whose patch omits hasMore; reset restores false.  Only a setPageInfo
patch that names hasMore explicitly (the counterexample) writes a value
that is neither preserved, nor derived, nor the reset default. -/
theorem hasMore_derivation {α ε : Type} (o : FetchOptions) (s : State α) (b : Bool)
    (info : PagePatch) (data : Option (List α)) (succ : Option Bool) (t : Option Nat) (e : ε)
    (hload : ¬ s.loading = some true) (hsucc : succ ≠ some false)
    (hinfo : info.hasMore = none) :
    (fetchList false s (FetchOutcome.resolved data succ t : FetchOutcome α ε)).1.pageInfo.total
      = t.getD 0 ∧
    (fetchList false s (FetchOutcome.resolved data succ t : FetchOutcome α ε)).1.pageInfo.hasMore
      = decide (s.pageInfo.pageSize * s.pageInfo.page < t.getD 0) ∧
    (∀ d : List α,
      (fetchList b s (FetchOutcome.resolved (some d) succ t : FetchOutcome α ε)).1.pageInfo.hasMore
        = decide (s.pageInfo.pageSize * s.pageInfo.page < t.getD 0)) ∧
    (s.list.isSome = true →
      (fetchList true s (FetchOutcome.resolved none succ t : FetchOutcome α ε)).1.pageInfo
        = s.pageInfo) ∧
    (fetchList b s (FetchOutcome.resolved data (some false) t : FetchOutcome α ε)).1.pageInfo.hasMore
      = s.pageInfo.hasMore ∧
    (fetchList b s (FetchOutcome.rejected e : FetchOutcome α ε)).1.pageInfo.hasMore
      = s.pageInfo.hasMore ∧
    (fetchMoreAction s).pageInfo.hasMore = s.pageInfo.hasMore ∧
    (resetPageIndexAction s).pageInfo.hasMore = s.pageInfo.hasMore ∧
    (resetAction o s).pageInfo.hasMore = false ∧
    (setPageInfoAction info s).pageInfo.hasMore = s.pageInfo.hasMore := by
  refine ⟨?_, ?_, ?_, ?_, ?_, ?_, ?_, rfl, rfl, ?_⟩
  · simp [fetchList, hload, hsucc]
  · simp [fetchList, hload, hsucc]
  · intro d
    by_cases hb : (b && s.list.isSome) = true <;>
      simp [fetchList, hload, hsucc, hb]
  · intro hsome
    simp [fetchList, hload, hsucc, hsome]
  · simp [fetchList, hload]
  · simp [fetchList, hload]
  · unfold fetchMoreAction
    split <;> rfl
  · simp [setPageInfoAction, hinfo]

/-- Witness for the amended C5, checking the two concrete derivations of
the claim: total 10 with pageSize 3 gives hasMore true at page 3 and
hasMore false at page 4. -/
theorem hasMore_derivation_witness :
    (fetchList false (⟨some [], some false, ⟨false, 3, 3, 0⟩⟩ : State Nat)
      (FetchOutcome.resolved (some []) none (some 10) : FetchOutcome Nat String)
      ).1.pageInfo.hasMore = true ∧
    (fetchList false (⟨some [], some false, ⟨false, 4, 3, 0⟩⟩ : State Nat)
      (FetchOutcome.resolved (some []) none (some 10) : FetchOutcome Nat String)
      ).1.pageInfo.hasMore = false := by
  have h1 := hasMore_derivation (ε := String) ⟨none, none⟩
    (⟨some [], some false, ⟨false, 3, 3, 0⟩⟩ : State Nat) false ⟨none, none, none, none⟩
    (some []) none (some 10) "x" (by decide) (by decide) rfl
  have h2 := hasMore_derivation (ε := String) ⟨none, none⟩
    (⟨some [], some false, ⟨false, 4, 3, 0⟩⟩ : State Nat) false ⟨none, none, none, none⟩
    (some []) none (some 10) "x" (by decide) (by decide) rfl
  refine ⟨?_, ?_⟩
  · rw [h1.2.1]
    decide
  · rw [h2.2.1]
    decide

/-- Claim C6: when pageSize changes and a previous (truthy) pageSize was
observed, the reaction of lines 138-144 sets page back to 1 and runs a
replace-mode fetch whatever the current list length is (the effect has
no list-length guard): afterwards page is 1 for every settled outcome,
exactly one request was issued, with current 1 and the new pageSize, and
a resolved outcome whose success is not false replaces the list with the
raw data. -/
theorem pageSize_change_resets_page {α ε : Type} (s : State α) (o : FetchOutcome α ε) (q : Nat)
    (hq : q ≠ 0) (hload : ¬ s.loading = some true) :
    (pageSizeChangeEffect (some q) s o).1.pageInfo.page = 1 ∧
    (pageSizeChangeEffect (some q) s o).2.requests = [(1, s.pageInfo.pageSize)] ∧
    (∀ (data : Option (List α)) (succ : Option Bool) (t : Option Nat), succ ≠ some false →
      (pageSizeChangeEffect (some q) s
        (FetchOutcome.resolved data succ t : FetchOutcome α ε)).1.list = data) := by
  refine ⟨?_, ?_, ?_⟩
  · cases o with
    | rejected e => simp [pageSizeChangeEffect, fetchList, hq, hload]
    | resolved data succ t =>
      by_cases hs : succ = some false <;>
        simp [pageSizeChangeEffect, fetchList, hq, hload, hs]
  · cases o with
    | rejected e => simp [pageSizeChangeEffect, fetchList, hq, hload]
    | resolved data succ t =>
      by_cases hs : succ = some false <;>
        simp [pageSizeChangeEffect, fetchList, hq, hload, hs]
  · intro data succ t hs
    simp [pageSizeChangeEffect, fetchList, hq, hload, hs]

/-- Witness for C6: the concrete run of the spec, page 3 and pageSize 20,
then setPageInfo with pageSize 50; after the reaction the current page
is 1. -/
theorem pageSize_change_resets_page_witness :
    (20 : Nat) ≠ 0 ∧
    (pageSizeChangeEffect (some 20)
      (setPageInfoAction ⟨none, none, some 50, none⟩
        (⟨some [], some false, ⟨false, 3, 20, 0⟩⟩ : State Nat))
      (FetchOutcome.resolved (some [1]) none (some 0) : FetchOutcome Nat String)
      ).1.pageInfo.page = 1 := by
  refine ⟨by decide, ?_⟩
  exact (pageSize_change_resets_page
    (setPageInfoAction ⟨none, none, some 50, none⟩
      (⟨some [], some false, ⟨false, 3, 20, 0⟩⟩ : State Nat))
    (FetchOutcome.resolved (some [1]) none (some 0) : FetchOutcome Nat String)
    20 (by decide) (by decide)).1

/-- Claim C7: reset writes the pageInfo captured at construction — the
expression of lines 167-172 is the one of lines 61-66, here
initialPageInfo — whatever values page, pageSize and total hold at the
time, and it leaves the list and the loading flag unchanged; reset is a
plain state update producing no FetchEvents, so it performs no fetch of
its own. -/
theorem reset_restores_construction_defaults {α : Type} (o : FetchOptions) (s : State α) :
    (resetAction o s).pageInfo = initialPageInfo o ∧
    (resetAction o s).pageInfo.hasMore = false ∧
    (resetAction o s).pageInfo.total = 0 ∧
    (resetAction o s).pageInfo.page = resolvedCurrent o ∧
    (resetAction o s).pageInfo.pageSize = resolvedPageSize o ∧
    (resetAction o s).list = s.list ∧
    (resetAction o s).loading = s.loading :=
  ⟨rfl, rfl, rfl, rfl, rfl, rfl, rfl⟩

/-- Claim C8: the page-change reaction of lines 120-135, with defined
previous observations that respect the data model of the spec (page and
pageSize are integers of at least 1, so truthiness coincides with
definedness): when page and pageSize both equal their previous values
the reaction does nothing, and when page differs from its previous value
the reaction invokes fetchList exactly when the current list length is
at most pageSize (page is always a defined number in the model); in the
fetching case the reaction is fetchList in replace mode, otherwise the
state is unchanged and no events occur. -/
theorem pageChange_fetch_decision_iff {α ε : Type} (s : State α) (p q : Nat) (l : List α)
    (hp : p ≠ 0) (hq : q ≠ 0) (hl : s.list = some l) :
    (p = s.pageInfo.page → q = s.pageInfo.pageSize →
      pageChangeFetchDecision (some p) (some q) s = some false ∧
      (∀ o : FetchOutcome α ε, pageChangeEffect (some p) (some q) s o
        = some (s, FetchEvents.empty))) ∧
    (p ≠ s.pageInfo.page →
      (pageChangeFetchDecision (some p) (some q) s = some true
        ↔ l.length ≤ s.pageInfo.pageSize) ∧
      (l.length ≤ s.pageInfo.pageSize →
        ∀ o : FetchOutcome α ε, pageChangeEffect (some p) (some q) s o
          = some (fetchList false s o)) ∧
      (¬ l.length ≤ s.pageInfo.pageSize →
        ∀ o : FetchOutcome α ε, pageChangeEffect (some p) (some q) s o
          = some (s, FetchEvents.empty))) := by
  constructor
  · intro hpe hqe
    have hd : pageChangeFetchDecision (some p) (some q) s = some false := by
      simp [pageChangeFetchDecision, hpe, hqe]
    exact ⟨hd, fun o => by simp [pageChangeEffect, hd]⟩
  · intro hne
    have hcond : ¬ ((((some p : Option Nat) = none ∨ (some p : Option Nat) = some 0) ∨
        (some p : Option Nat) = some s.pageInfo.page) ∧
        (((some q : Option Nat) = none ∨ (some q : Option Nat) = some 0) ∨
        (some q : Option Nat) = some s.pageInfo.pageSize)) := by
      simp [hp, hne]
    have hd : pageChangeFetchDecision (some p) (some q) s
        = some (decide (l.length ≤ s.pageInfo.pageSize)) := by
      unfold pageChangeFetchDecision
      rw [if_neg hcond, hl]
    refine ⟨?_, ?_, ?_⟩
    · simp [hd]
    · intro hlen o
      simp [pageChangeEffect, hd, decide_eq_true hlen]
    · intro hlen o
      simp [pageChangeEffect, hd, decide_eq_false hlen]

/-- Witness for C8: page previously 1, now 2, pageSize 2 unchanged, list
of length 2, so the reaction decides to fetch. -/
theorem pageChange_fetch_decision_iff_witness :
    (1 : Nat) ≠ 0 ∧
    (⟨some [1, 2], none, ⟨false, 2, 2, 4⟩⟩ : State Nat).list = some [1, 2] ∧
    pageChangeFetchDecision (some 1) (some 2)
      (⟨some [1, 2], none, ⟨false, 2, 2, 4⟩⟩ : State Nat) = some true := by
  have h := pageChange_fetch_decision_iff (ε := String)
    (⟨some [1, 2], none, ⟨false, 2, 2, 4⟩⟩ : State Nat) 1 2 [1, 2]
    (by decide) (by decide) rfl
  exact ⟨by decide, rfl, (h.2 (by decide)).1.mpr (by decide)⟩

/-- Claim C9: setPageInfo is a shallow merge (lines 175-179): for every
patch, each field named in the patch takes the given value, each field
absent from the patch keeps its current value, and the list and the
loading flag are untouched. -/
theorem setPageInfo_shallow_merge {α : Type} (info : PagePatch) (s : State α) :
    ((info.hasMore = none →
        (setPageInfoAction info s).pageInfo.hasMore = s.pageInfo.hasMore) ∧
      ∀ v : Bool, info.hasMore = some v → (setPageInfoAction info s).pageInfo.hasMore = v) ∧
    ((info.page = none → (setPageInfoAction info s).pageInfo.page = s.pageInfo.page) ∧
      ∀ v : Nat, info.page = some v → (setPageInfoAction info s).pageInfo.page = v) ∧
    ((info.pageSize = none →
        (setPageInfoAction info s).pageInfo.pageSize = s.pageInfo.pageSize) ∧
      ∀ v : Nat, info.pageSize = some v → (setPageInfoAction info s).pageInfo.pageSize = v) ∧
    ((info.total = none → (setPageInfoAction info s).pageInfo.total = s.pageInfo.total) ∧
      ∀ v : Nat, info.total = some v → (setPageInfoAction info s).pageInfo.total = v) ∧
    (setPageInfoAction info s).list = s.list ∧
    (setPageInfoAction info s).loading = s.loading := by
  refine ⟨⟨fun h => ?_, fun v h => ?_⟩, ⟨fun h => ?_, fun v h => ?_⟩,
    ⟨fun h => ?_, fun v h => ?_⟩, ⟨fun h => ?_, fun v h => ?_⟩, rfl, rfl⟩ <;>
    simp [setPageInfoAction, h]

/-- Witness for C9 at a concrete patch naming only page: page takes the
given value, pageSize and hasMore keep their current values. -/
theorem setPageInfo_shallow_merge_witness :
    (setPageInfoAction ⟨none, some 5, none, none⟩
      (⟨some [], none, ⟨true, 2, 10, 30⟩⟩ : State Nat)).pageInfo.page = 5 ∧
    (setPageInfoAction ⟨none, some 5, none, none⟩
      (⟨some [], none, ⟨true, 2, 10, 30⟩⟩ : State Nat)).pageInfo.pageSize = 10 ∧
    (setPageInfoAction ⟨none, some 5, none, none⟩
      (⟨some [], none, ⟨true, 2, 10, 30⟩⟩ : State Nat)).pageInfo.hasMore = true := by
  have h := setPageInfo_shallow_merge (⟨none, some 5, none, none⟩ : PagePatch)
    (⟨some [], none, ⟨true, 2, 10, 30⟩⟩ : State Nat)
  exact ⟨h.2.1.2 5 rfl, h.2.2.1.1 rfl, h.1.1 rfl⟩

/-- Claim C10: the page-change reaction reads the length of the list on
line 132, so it is only total when the list is defined.  A controller
constructed without defaultData starts with an undefined list, a page
change observed before any successful fetch then makes the reaction
fault (modelled by none), and when the list is defined — defaultData was
supplied or a fetch stored data — the reaction always produces a
result. -/
theorem pageChange_requires_defined_list {α ε : Type} (o : FetchOptions) (s : State α)
    (p q : Nat) (oc : FetchOutcome α ε)
    (hp : p ≠ 0) (hchanged : p ≠ s.pageInfo.page) :
    (initialState (α := α) none o).list = none ∧
    (s.list = none → pageChangeEffect (some p) (some q) s oc = none) ∧
    (∀ l : List α, s.list = some l →
      ∃ r : State α × FetchEvents α ε,
        pageChangeEffect (some p) (some q) s oc = some r) := by
  have hA : ¬ (((some p : Option Nat) = none ∨ (some p : Option Nat) = some 0) ∨
      (some p : Option Nat) = some s.pageInfo.page) := by
    simp [hp, hchanged]
  refine ⟨rfl, ?_, ?_⟩
  · intro hnil
    have hd : pageChangeFetchDecision (some p) (some q) s = none := by
      unfold pageChangeFetchDecision
      rw [if_neg (fun hc => hA hc.1), hnil]
    simp [pageChangeEffect, hd]
  · intro l hl
    have hd : pageChangeFetchDecision (some p) (some q) s
        = some (decide (l.length ≤ s.pageInfo.pageSize)) := by
      unfold pageChangeFetchDecision
      rw [if_neg (fun hc => hA hc.1), hl]
    cases hdec : decide (l.length ≤ s.pageInfo.pageSize) with
    | false => exact ⟨(s, FetchEvents.empty), by simp [pageChangeEffect, hd, hdec]⟩
    | true => exact ⟨fetchList false s oc, by simp [pageChangeEffect, hd, hdec]⟩

/-- Witness for C10: with page changed from 1 to 2 before any fetch, an
undefined list makes the reaction fault, and the same pagination state
with a defined list produces a result. -/
theorem pageChange_requires_defined_list_witness :
    pageChangeEffect (some 1) (some 20) (⟨none, none, ⟨false, 2, 20, 0⟩⟩ : State Nat)
      (FetchOutcome.resolved (some []) none none : FetchOutcome Nat String) = none ∧
    (∃ r : State Nat × FetchEvents Nat String,
      pageChangeEffect (some 1) (some 20) (⟨some [9], none, ⟨false, 2, 20, 0⟩⟩ : State Nat)
        (FetchOutcome.resolved (some []) none none : FetchOutcome Nat String) = some r) := by
  have h1 := pageChange_requires_defined_list (⟨none, none⟩ : FetchOptions)
    (⟨none, none, ⟨false, 2, 20, 0⟩⟩ : State Nat) 1 20
    (FetchOutcome.resolved (some []) none none : FetchOutcome Nat String)
    (by decide) (by decide)
  have h2 := pageChange_requires_defined_list (⟨none, none⟩ : FetchOptions)
    (⟨some [9], none, ⟨false, 2, 20, 0⟩⟩ : State Nat) 1 20
    (FetchOutcome.resolved (some []) none none : FetchOutcome Nat String)
    (by decide) (by decide)
  exact ⟨h1.2.1 rfl, h2.2.2 [9] rfl⟩

end ProTable
